import Mathlib

/-!
Verification of the energy-grid editor's topology store and metrics engine.

The program keeps an in-memory topology `{'nodes': [...], 'connections': [...]}`
where each node is a `Node` object carrying a type string, a canvas position,
a floating-point energy and the canvas item id `item` used as its identifier,
and each connection is a pair `(start_item, end_item)` of canvas item ids.
`GridSimulator` computes performance metrics from a topology snapshot and a
randomized security assessment; `GridApp` mutates the topology (add/move/remove
nodes, add/remove connections).

Numbers are embedded as rationals; the canvas (a pure rendering concern) is
abstracted away except where the code reads it: `add_connection` reads the
canvas coordinates of the two chosen items (modelled by an explicit partial
coordinate map), and node creation draws on the canvas and receives a fresh
canvas item id (modelled by an explicit `newItem` argument where a node is
created).
-/

namespace EnergyGrid

/-- One grid element from class `Node` in UI.py: its type string, position,
energy and the canvas item id returned by `draw`, which the rest of the code
uses as the node's identifier. -/
structure Node where
  node_type : String
  x : Int
  y : Int
  energy : ℚ
  item : Nat
deriving DecidableEq

/-- The topology dictionary `{'nodes': [...], 'connections': [...]}`. -/
structure GridTopology where
  nodes : List Node
  connections : List (Nat × Nat)
deriving DecidableEq

/-- Producer node types as listed in `GridSimulator.simulate_performance`. -/
def producerTypes : List String :=
  ["Generator", "Coal Plant", "Natural Gas", "Nuclear Plant", "Petroleum", "Hydro"]

/-- Consumer node types as listed in `GridSimulator.simulate_performance`. -/
def consumerTypes : List String :=
  ["City", "Building"]

/-- `total_energy`: sum of energies over producer-typed nodes. -/
def totalEnergyOutput (g : GridTopology) : ℚ :=
  ((g.nodes.filter (fun n => producerTypes.contains n.node_type)).map Node.energy).sum

/-- `total_demand`: sum of energies over consumer-typed nodes. -/
def totalEnergyDemand (g : GridTopology) : ℚ :=
  ((g.nodes.filter (fun n => consumerTypes.contains n.node_type)).map Node.energy).sum

/-- `next((node for node in nodes if node.item == item), None)`: first node
whose canvas item id matches, if any. -/
def findNode (g : GridTopology) (item : Nat) : Option Node :=
  g.nodes.find? (fun n => n.item == item)

/-- Per-edge efficiency from `calculate_path_efficiency`:
`1 - |Δenergy| / max(|energyA|, |energyB|, 1)`. -/
def connectionEfficiency (a b : Node) : ℚ :=
  1 - |a.energy - b.energy| / max (max |a.energy| |b.energy|) 1

/-- The contribution of one connection to `total_efficiency`: the per-edge
efficiency when both endpoint lookups succeed, else nothing is added. -/
def edgeContribution (g : GridTopology) (c : Nat × Nat) : ℚ :=
  match findNode g c.1, findNode g c.2 with
  | some a, some b => connectionEfficiency a b
  | _, _ => 0

/-- `GridSimulator.calculate_path_efficiency`: 0.5 when there are no
connections, otherwise the summed per-edge efficiencies divided by the total
connection count (connections with a failed endpoint lookup contribute 0 to
the sum but still count in the denominator). -/
def calculate_path_efficiency (g : GridTopology) : ℚ :=
  if g.connections = [] then 1 / 2
  else ((g.connections.map (edgeContribution g)).sum) / (g.connections.length : ℚ)

/-- The dictionary returned by `GridSimulator.simulate_performance`. -/
structure Performance where
  total_energy_output : ℚ
  total_energy_demand : ℚ
  average_efficiency : ℚ
  load_balance : ℚ
deriving DecidableEq

/-- `GridSimulator.simulate_performance`. -/
def simulate_performance (g : GridTopology) : Performance :=
  let total_energy := totalEnergyOutput g
  let total_demand := totalEnergyDemand g
  let efficiency := calculate_path_efficiency g
  let load_balance := min 1 (total_energy / (total_demand + 1 / 1000))
  { total_energy_output := total_energy * efficiency
    total_energy_demand := total_demand
    average_efficiency := efficiency * 100
    load_balance := load_balance * 100 }

/-- `GridApp.remove_connections`: keep only connections with both endpoints
different from the removed item. -/
def remove_connections (g : GridTopology) (item : Nat) : GridTopology :=
  { g with connections :=
      g.connections.filter (fun c => c.1 != item && c.2 != item) }

/-- `GridApp.remove_node`: drop every node whose item id matches, then cascade
to the connections via `remove_connections`. -/
def remove_node (g : GridTopology) (item : Nat) : GridTopology :=
  remove_connections
    { g with nodes := g.nodes.filter (fun n => n.item != item) } item

/-- `GridApp.add_connection`: if the two chosen items differ and both have
canvas coordinates, append the pair to the connections; otherwise do nothing.
The canvas coordinate lookup `canvas.coords` is modelled by `coords` (a
deleted or never-created item has no coordinates). -/
def add_connection (g : GridTopology) (coords : Nat → Option (Int × Int))
    (s e : Nat) : GridTopology :=
  if s ≠ e then
    match coords s, coords e with
    | some _, some _ => { g with connections := g.connections ++ [(s, e)] }
    | _, _ => g
  else g

/-- Helper for `update_node_position`: replace the first node whose item id
matches by a freshly constructed `Node` with the same type and energy, the
new position, and the fresh canvas item id `newItem` that `Node.draw`
allocates for it. -/
def replaceFirstNode : List Node → Nat → Int → Int → Nat → List Node
  | [], _, _, _, _ => []
  | n :: rest, item, x, y, newItem =>
    if n.item == item then
      { node_type := n.node_type, x := x, y := y, energy := n.energy,
        item := newItem } :: rest
    else n :: replaceFirstNode rest item x y newItem

/-- `GridApp.update_node_position`: the move-commit handler. It replaces the
matched node by `Node(node_type, canvas, x, y, energy)` — a new object whose
`item` is the fresh canvas id of the newly drawn image — and leaves the
connection list untouched (`update_connections` only moves canvas lines). -/
def update_node_position (g : GridTopology) (item : Nat) (x y : Int)
    (newItem : Nat) : GridTopology :=
  { g with nodes := replaceFirstNode g.nodes item x y newItem }

/-- The fixed suggestion catalog in `perform_security_assessment`. -/
def suggestionsCatalog : List String :=
  ["Implement advanced encryption",
   "Upgrade firewall systems",
   "Conduct regular security audits"]

/-- `random.sample(pop, k=2)`: two elements drawn without replacement. The
random source is modelled by two numbers `i j`; the first pick is at index
`i % |pop|` and the second at index `j % (|pop| - 1)` of the remainder, which
is exactly selection without replacement. -/
def sampleTwo (pop : List String) (i j : Nat) : List String :=
  let a := pop.getD (i % pop.length) ""
  let rest := pop.eraseIdx (i % pop.length)
  let b := rest.getD (j % rest.length) ""
  [a, b]

/-- The dictionary returned by `GridSimulator.perform_security_assessment`;
the uniformly random score is abstracted as a parameter. -/
structure SecurityAssessment where
  vulnerability_score : ℚ
  suggestions : List String

/-- `GridSimulator.perform_security_assessment`: a random score and a
2-element sample from the fixed 3-item catalog. -/
def perform_security_assessment (score : ℚ) (i j : Nat) : SecurityAssessment :=
  { vulnerability_score := score
    suggestions := sampleTwo suggestionsCatalog i j }

/-- C10: on the completely empty topology, `simulate_performance` is total and
returns output 0, demand 0, efficiency 50.0 and load balance 0.0 (the
epsilon-guarded ratio `0 / 0.001 = 0` is capped by `min` at neither end). -/
theorem simulate_performance_empty :
    simulate_performance ⟨[], []⟩ =
      { total_energy_output := 0, total_energy_demand := 0,
        average_efficiency := 50, load_balance := 0 } := by
  simp only [simulate_performance, totalEnergyOutput, totalEnergyDemand,
    calculate_path_efficiency, Performance.mk.injEq]
  norm_num

/-- C8: on any topology with at least one node and no connections,
`simulate_performance` reports efficiency 50.0, whatever the nodes' types and
energies (`calculate_path_efficiency` returns its 0.5 neutral default). -/
theorem efficiency_fifty_of_no_connections (g : GridTopology)
    (_hn : g.nodes ≠ []) (he : g.connections = []) :
    (simulate_performance g).average_efficiency = 50 := by
  simp only [simulate_performance, calculate_path_efficiency, he, if_pos rfl]
  norm_num

/-- Witness for C8 at a concrete one-node topology with no connections. -/
theorem efficiency_fifty_of_no_connections_witness :
    (simulate_performance ⟨[⟨"Generator", 0, 0, 100, 1⟩], []⟩).average_efficiency
      = 50 :=
  efficiency_fifty_of_no_connections ⟨[⟨"Generator", 0, 0, 100, 1⟩], []⟩
    (by simp) rfl

/-- C7: a self-loop request is rejected before any mutation: for every item id
`x`, whatever the topology and whatever the canvas holds (in particular
whether or not any node with id `x` exists), `add_connection` with equal
endpoints leaves the topology — in particular its connection list —
unchanged. -/
theorem add_connection_self_loop_rejected (g : GridTopology)
    (coords : Nat → Option (Int × Int)) (x : Nat) :
    add_connection g coords x x = g ∧
      (add_connection g coords x x).connections = g.connections := by
  constructor <;> simp [add_connection]

/-- C3: a topology with exactly one Generator node (energy 100), one City node
(energy 40) and one connection between them (distinct item ids, so both
endpoint lookups succeed) yields per-edge efficiency 0.4, hence
efficiencyPercent 40.0, energyOutput 100·0.4 = 40, energyDemand 40 and
loadBalancePercent 100.0. -/
theorem concrete_edge_scenario (i₁ i₂ : Nat) (x₁ y₁ x₂ y₂ : Int)
    (h : i₁ ≠ i₂) :
    simulate_performance
      ⟨[⟨"Generator", x₁, y₁, 100, i₁⟩, ⟨"City", x₂, y₂, 40, i₂⟩],
       [(i₁, i₂)]⟩ =
      { total_energy_output := 40, total_energy_demand := 40,
        average_efficiency := 40, load_balance := 100 } := by
  have h' : (i₁ == i₂) = false := by simp [h]
  simp [simulate_performance, totalEnergyOutput, totalEnergyDemand,
    calculate_path_efficiency, edgeContribution, connectionEfficiency,
    findNode, producerTypes, consumerTypes, List.filter, List.find?,
    h', Performance.mk.injEq]
  norm_num [min_def]

/-- Witness for C3 with item ids 1 and 2 and both nodes at the origin. -/
theorem concrete_edge_scenario_witness :
    simulate_performance
      ⟨[⟨"Generator", 0, 0, 100, 1⟩, ⟨"City", 0, 0, 40, 2⟩], [(1, 2)]⟩ =
      { total_energy_output := 40, total_energy_demand := 40,
        average_efficiency := 40, load_balance := 100 } :=
  concrete_edge_scenario 1 2 0 0 0 0 (by decide)

/-- The per-edge divisor `max(|energyA|, |energyB|, 1)` is at least 1. -/
theorem one_le_effDivisor (a b : Node) :
    (1 : ℚ) ≤ max (max |a.energy| |b.energy|) 1 :=
  le_max_right _ _

/-- Per-edge efficiency never exceeds 1: the subtracted ratio is
nonnegative. -/
theorem connectionEfficiency_le_one (a b : Node) :
    connectionEfficiency a b ≤ 1 := by
  unfold connectionEfficiency
  have hM : (0 : ℚ) < max (max |a.energy| |b.energy|) 1 :=
    lt_of_lt_of_le one_pos (one_le_effDivisor a b)
  have : 0 ≤ |a.energy - b.energy| / max (max |a.energy| |b.energy|) 1 :=
    div_nonneg (abs_nonneg _) hM.le
  linarith

/-- Per-edge efficiency is at least −1: `|Δenergy| ≤ |energyA| + |energyB|`
is at most twice the divisor. -/
theorem neg_one_le_connectionEfficiency (a b : Node) :
    -1 ≤ connectionEfficiency a b := by
  unfold connectionEfficiency
  set M : ℚ := max (max |a.energy| |b.energy|) 1 with hMdef
  have hM : (0 : ℚ) < M := lt_of_lt_of_le one_pos (le_max_right _ _)
  have ha : |a.energy| ≤ M := le_trans (le_max_left _ _) (le_max_left _ _)
  have hb : |b.energy| ≤ M := le_trans (le_max_right _ _) (le_max_left _ _)
  have habs : |a.energy - b.energy| ≤ 2 * M :=
    le_trans (abs_sub _ _) (by linarith)
  have : |a.energy - b.energy| / M ≤ 2 := by
    rw [div_le_iff₀ hM]; linarith
  linarith

/-- Each connection contributes a value in [−1, 1] (0 when a lookup fails). -/
theorem edgeContribution_bounds (g : GridTopology) (c : Nat × Nat) :
    -1 ≤ edgeContribution g c ∧ edgeContribution g c ≤ 1 := by
  unfold edgeContribution
  rcases findNode g c.1 with _ | a <;> rcases findNode g c.2 with _ | b <;>
    simp only
  · exact ⟨by norm_num, by norm_num⟩
  · exact ⟨by norm_num, by norm_num⟩
  · exact ⟨by norm_num, by norm_num⟩
  · exact ⟨neg_one_le_connectionEfficiency a b, connectionEfficiency_le_one a b⟩

/-- A list of rationals that are all at most 1 sums to at most the length. -/
theorem list_sum_le_length (l : List ℚ) (h : ∀ x ∈ l, x ≤ 1) :
    l.sum ≤ (l.length : ℚ) := by
  induction l with
  | nil => simp
  | cons a t ih =>
    simp only [List.sum_cons, List.length_cons, Nat.cast_add, Nat.cast_one]
    have ha := h a (List.mem_cons_self a t)
    have ht := ih (fun x hx => h x (List.mem_cons_of_mem a hx))
    linarith

/-- A list of rationals that are all at least −1 sums to at least minus the
length. -/
theorem neg_length_le_list_sum (l : List ℚ) (h : ∀ x ∈ l, -1 ≤ x) :
    -(l.length : ℚ) ≤ l.sum := by
  induction l with
  | nil => simp
  | cons a t ih =>
    simp only [List.sum_cons, List.length_cons, Nat.cast_add, Nat.cast_one]
    have ha := h a (List.mem_cons_self a t)
    have ht := ih (fun x hx => h x (List.mem_cons_of_mem a hx))
    linarith

/-- C2 amended: the path efficiency computed by the code always lies in
[−1, 1] — but not in [0, 1] as claimed; opposite-sign endpoint energies push
a per-edge efficiency below 0, see `path_efficiency_below_zero`. -/
theorem path_efficiency_bounds (g : GridTopology) :
    -1 ≤ calculate_path_efficiency g ∧ calculate_path_efficiency g ≤ 1 := by
  unfold calculate_path_efficiency
  by_cases hc : g.connections = []
  · rw [if_pos hc]; norm_num
  · rw [if_neg hc]
    have hlen : 0 < (g.connections.length : ℚ) := by
      have := List.length_pos.mpr hc
      exact_mod_cast this
    have hub : (g.connections.map (edgeContribution g)).sum ≤
        (g.connections.length : ℚ) := by
      have := list_sum_le_length (g.connections.map (edgeContribution g))
        (by rintro x hx
            rcases List.mem_map.mp hx with ⟨c, _, rfl⟩
            exact (edgeContribution_bounds g c).2)
      simpa using this
    have hlb : -(g.connections.length : ℚ) ≤
        (g.connections.map (edgeContribution g)).sum := by
      have := neg_length_le_list_sum (g.connections.map (edgeContribution g))
        (by rintro x hx
            rcases List.mem_map.mp hx with ⟨c, _, rfl⟩
            exact (edgeContribution_bounds g c).1)
      simpa using this
    constructor
    · rw [le_div_iff₀ hlen]; linarith
    · rw [div_le_one hlen]; exact hub

/-- C2 counterexample: on the topology with two producer nodes of energies
100 and −100 joined by one connection, the code's path efficiency is
1 − 200/100 = −1, which is not in [0, 1] (efficiencyPercent is −100). -/
theorem path_efficiency_below_zero :
    calculate_path_efficiency
        ⟨[⟨"Generator", 0, 0, 100, 1⟩, ⟨"Generator", 0, 0, -100, 2⟩],
         [(1, 2)]⟩ = -1 ∧
      ¬(0 ≤ (calculate_path_efficiency
        ⟨[⟨"Generator", 0, 0, 100, 1⟩, ⟨"Generator", 0, 0, -100, 2⟩],
         [(1, 2)]⟩)) := by
  have hval : calculate_path_efficiency
      ⟨[⟨"Generator", 0, 0, 100, 1⟩, ⟨"Generator", 0, 0, -100, 2⟩],
       [(1, 2)]⟩ = -1 := by
    simp [calculate_path_efficiency, edgeContribution, connectionEfficiency,
      findNode, List.find?]
    norm_num
  refine ⟨hval, ?_⟩
  rw [hval]
  norm_num

/-- Whether both endpoint lookups of a connection succeed. -/
def lookupsSucceed (g : GridTopology) (c : Nat × Nat) : Bool :=
  (findNode g c.1).isSome && (findNode g c.2).isSome

/-- The formula of claim C4, stated as written: sum the per-edge efficiency
over exactly those connections whose two endpoint lookups succeed, then
divide by the total number of connections, skipped ones included. -/
def pathEfficiencyClaimFormula (g : GridTopology) : ℚ :=
  (((g.connections.filter (lookupsSucceed g)).map (edgeContribution g)).sum) /
    (g.connections.length : ℚ)

/-- Dropping from the sum the elements where the mapped function vanishes
leaves the sum unchanged. -/
theorem sum_map_filter_of_vanish (l : List (Nat × Nat)) (p : Nat × Nat → Bool)
    (f : Nat × Nat → ℚ) (h : ∀ x ∈ l, p x = false → f x = 0) :
    ((l.filter p).map f).sum = (l.map f).sum := by
  induction l with
  | nil => simp
  | cons a t ih =>
    have ht := ih (fun x hx hpx => h x (List.mem_cons_of_mem a hx) hpx)
    by_cases hp : p a
    · simp [List.filter_cons, hp, ht]
    · have hfa : f a = 0 := h a (List.mem_cons_self a t)
        (Bool.not_eq_true _ ▸ hp)
    -- `p a = false` from `¬ p a = true`
      simp [List.filter_cons, Bool.not_eq_true _ |>.mp hp, ht, hfa]

/-- A connection with a failed endpoint lookup contributes 0. -/
theorem edgeContribution_eq_zero_of_lookup_fails (g : GridTopology)
    (c : Nat × Nat) (h : lookupsSucceed g c = false) :
    edgeContribution g c = 0 := by
  unfold lookupsSucceed at h
  unfold edgeContribution
  rcases h1 : findNode g c.1 with _ | a <;> rcases h2 : findNode g c.2 with _ | b <;>
    simp_all

/-- C4: on any topology with at least one connection, the code's path
efficiency equals the claim's formula: the per-edge efficiencies summed over
exactly the connections whose two endpoint lookups succeed, divided by the
total connection count including the skipped ones. -/
theorem path_efficiency_eq_claim_formula (g : GridTopology)
    (h : g.connections ≠ []) :
    calculate_path_efficiency g = pathEfficiencyClaimFormula g := by
  unfold calculate_path_efficiency pathEfficiencyClaimFormula
  rw [if_neg h, sum_map_filter_of_vanish _ _ _
    (fun c _ hc => edgeContribution_eq_zero_of_lookup_fails g c hc)]

/-- Witness for C4 on a topology with one resolvable connection and one
dangling connection: both formulas give 0.4/2 = 0.2. -/
theorem path_efficiency_eq_claim_formula_witness :
    calculate_path_efficiency
        ⟨[⟨"Generator", 0, 0, 100, 1⟩, ⟨"City", 0, 0, 40, 2⟩],
         [(1, 2), (1, 99)]⟩ =
      pathEfficiencyClaimFormula
        ⟨[⟨"Generator", 0, 0, 100, 1⟩, ⟨"City", 0, 0, 40, 2⟩],
         [(1, 2), (1, 99)]⟩ :=
  path_efficiency_eq_claim_formula _ (by simp)

/-- C5: the epsilon does NOT always keep the load-balance divisor nonzero.
`set_node_energy` accepts any value, so a topology with a single City node of
energy −0.001 is reachable; there `energyDemand + 0.001 = 0` and the Python
division `total_energy / (total_demand + 0.001)` raises ZeroDivisionError,
contrary to the code's own `# Avoid division by zero` comment. -/
theorem load_balance_divisor_can_vanish :
    totalEnergyDemand ⟨[⟨"City", 0, 0, -(1 / 1000), 1⟩], []⟩ + 1 / 1000 = 0 := by
  simp [totalEnergyDemand, consumerTypes, List.filter]

/-- C6: removing a node cascades: afterwards no node carries the removed item
id, no connection references it in either endpoint, and if every connection's
endpoints resolved to present nodes before, they still do. -/
theorem remove_node_cascade (g : GridTopology) (item : Nat)
    (hinv : ∀ c ∈ g.connections,
      (∃ n ∈ g.nodes, n.item = c.1) ∧ (∃ n ∈ g.nodes, n.item = c.2)) :
    (∀ n ∈ (remove_node g item).nodes, n.item ≠ item) ∧
    (∀ c ∈ (remove_node g item).connections, c.1 ≠ item ∧ c.2 ≠ item) ∧
    (∀ c ∈ (remove_node g item).connections,
      (∃ n ∈ (remove_node g item).nodes, n.item = c.1) ∧
      (∃ n ∈ (remove_node g item).nodes, n.item = c.2)) := by
  unfold remove_node remove_connections
  refine ⟨?_, ?_, ?_⟩
  · intro n hn
    have := (List.mem_filter.mp hn).2
    simpa using this
  · intro c hc
    have := (List.mem_filter.mp hc).2
    simpa using this
  · intro c hc
    rcases List.mem_filter.mp hc with ⟨hcmem, hckeep⟩
    rcases (by simpa using hckeep : c.1 ≠ item ∧ c.2 ≠ item) with ⟨h1, h2⟩
    rcases hinv c hcmem with ⟨⟨n1, hn1, hn1i⟩, ⟨n2, hn2, hn2i⟩⟩
    refine ⟨⟨n1, ?_, hn1i⟩, ⟨n2, ?_, hn2i⟩⟩
    · exact List.mem_filter.mpr ⟨hn1, by simpa using hn1i ▸ h1⟩
    · exact List.mem_filter.mpr ⟨hn2, by simpa using hn2i ▸ h2⟩

/-- Witness for C6: removing node 1 from a two-node topology whose only
connection touches it empties the connection list and keeps the invariant. -/
theorem remove_node_cascade_witness :
    (∀ n ∈ (remove_node ⟨[⟨"Generator", 0, 0, 100, 1⟩, ⟨"City", 0, 0, 40, 2⟩],
        [(1, 2)]⟩ 1).nodes, n.item ≠ 1) ∧
    (∀ c ∈ (remove_node ⟨[⟨"Generator", 0, 0, 100, 1⟩, ⟨"City", 0, 0, 40, 2⟩],
        [(1, 2)]⟩ 1).connections, c.1 ≠ 1 ∧ c.2 ≠ 1) ∧
    (∀ c ∈ (remove_node ⟨[⟨"Generator", 0, 0, 100, 1⟩, ⟨"City", 0, 0, 40, 2⟩],
        [(1, 2)]⟩ 1).connections,
      (∃ n ∈ (remove_node ⟨[⟨"Generator", 0, 0, 100, 1⟩, ⟨"City", 0, 0, 40, 2⟩],
          [(1, 2)]⟩ 1).nodes, n.item = c.1) ∧
      (∃ n ∈ (remove_node ⟨[⟨"Generator", 0, 0, 100, 1⟩, ⟨"City", 0, 0, 40, 2⟩],
          [(1, 2)]⟩ 1).nodes, n.item = c.2)) :=
  remove_node_cascade _ 1 (by
    intro c hc
    simp only [List.mem_singleton] at hc
    subst hc
    exact ⟨⟨⟨"Generator", 0, 0, 100, 1⟩, by simp, rfl⟩,
      ⟨⟨"City", 0, 0, 40, 2⟩, by simp, rfl⟩⟩)

/-- C9: for every draw of the random source (any score, any pair of index
draws), the suggestions list has length exactly 2, its elements come from the
fixed 3-item catalog, and the two elements are distinct. -/
theorem assessment_suggestions_sound (score : ℚ) (i j : Nat) :
    ((perform_security_assessment score i j).suggestions.length = 2) ∧
    (∀ s ∈ (perform_security_assessment score i j).suggestions,
      s ∈ suggestionsCatalog) ∧
    (perform_security_assessment score i j).suggestions.Nodup := by
  have hi : i % 3 = 0 ∨ i % 3 = 1 ∨ i % 3 = 2 := by omega
  have hj : j % 2 = 0 ∨ j % 2 = 1 := by omega
  have hcat : suggestionsCatalog.length = 3 := by simp [suggestionsCatalog]
  simp only [perform_security_assessment, sampleTwo, hcat]
  rcases hi with hi | hi | hi <;> rw [hi] <;>
    simp only [suggestionsCatalog, List.eraseIdx] <;>
    rcases hj with hj | hj <;>
    simp_all

/-- C1: evaluation of the move-commit code on a concrete topology: two nodes
with canvas ids 1 and 2 joined by the connection (1, 2); node 1 is moved to
(50, 50), the freshly drawn image receiving canvas id 3. The connection list
and the node's type and energy are preserved, but the moved node now carries
item id 3, so the untouched connection endpoint 1 no longer resolves to any
node (`findNode` succeeded before the move and fails after it): the edge no
longer references the moved node's identity. -/
theorem move_node_orphans_edge_identity :
    (update_node_position ⟨[⟨"Generator", 0, 0, 100, 1⟩, ⟨"City", 0, 0, 40, 2⟩],
        [(1, 2)]⟩ 1 50 50 3).connections = [(1, 2)] ∧
    (update_node_position ⟨[⟨"Generator", 0, 0, 100, 1⟩, ⟨"City", 0, 0, 40, 2⟩],
        [(1, 2)]⟩ 1 50 50 3).nodes =
      [⟨"Generator", 50, 50, 100, 3⟩, ⟨"City", 0, 0, 40, 2⟩] ∧
    (findNode ⟨[⟨"Generator", 0, 0, 100, 1⟩, ⟨"City", 0, 0, 40, 2⟩],
        [(1, 2)]⟩ 1).isSome = true ∧
    findNode (update_node_position ⟨[⟨"Generator", 0, 0, 100, 1⟩,
        ⟨"City", 0, 0, 40, 2⟩], [(1, 2)]⟩ 1 50 50 3) 1 = none := by
  refine ⟨rfl, ?_, ?_, ?_⟩ <;>
    simp [update_node_position, replaceFirstNode, findNode, List.find?]

end EnergyGrid
